import Mathlib

set_option maxRecDepth 2000

/-!
Verification of the resilient message-consumption engine of the
order-processing service.

The definitions below are a shallow embedding of:
- src/app/infra/message_broker/contracts/kafka_consumer_adapter_v0.py
  (KafkaConsumerAdapter: init, poll_messages, _handle_kafka_error,
  _process_message_safely, _send_to_dlq, _close_consumer, _consume_message)
- src/app/infra/message_broker/entities/abstract_consumer_adapter.py
  (AbstractConsumerAdapter: _poll_wrapper, start_scheduler, stop_scheduler,
  is_scheduler_running)
- src/app/infra/events/entities/event.py (Event)
- src/app/infra/events/features/process_events/usecases/USECASE_ProcessEvents.py

External collaborators (the confluent_kafka client, json.loads, utf-8 decoding
of key bytes, the dynamically resolved event processor, the DLQ producer, the
stop flag set by other threads) are modelled as explicit oracle parameters;
each modelled function returns its outcome together with the trace of the
effects it performed (log lines, DLQ produce attempts, pipeline invocations).
-/

namespace OrderProcessing

/-- Log severity levels of the service logger. -/
inductive LogLevel
| debug
| info
| warning
| error
| critical
deriving DecidableEq, Repr

/-- One emitted log line: severity and rendered message. -/
abbrev LogLine := LogLevel × String

/-- The Python exceptions that can flow through the adapter, each carrying the
text str(e) would render. -/
inductive PyError
| jsonDecodeError (m : String)
| unicodeDecodeError (m : String)
| attributeError (m : String)
| validationError (m : String)
| runtimeError (m : String)
| exception (m : String)
deriving DecidableEq, Repr

/-- Python str(e): the message text of the exception. -/
def PyError.str : PyError → String
| .jsonDecodeError m => m
| .unicodeDecodeError m => m
| .attributeError m => m
| .validationError m => m
| .runtimeError m => m
| .exception m => m

/-- The exceptions caught by the inner handler of _process_message_safely:
except (json.JSONDecodeError, UnicodeDecodeError). -/
def PyError.isJsonOrUnicodeError : PyError → Bool
| .jsonDecodeError _ => true
| .unicodeDecodeError _ => true
| _ => false

/-- Python values as returned by json.loads, plus None.  Models the dynamic
payload the adapter passes around. -/
inductive PyVal
| none
| str (s : String)
| int (n : Int)
| bool (b : Bool)
| list (xs : List PyVal)
| dict (fields : List (String × PyVal))
deriving Repr

/-- True exactly for Python str values. -/
def PyVal.isStr : PyVal → Bool
| .str _ => true
| _ => false

/-- Model of the Python f-string rendering of a payload value (used only inside
log messages no claim inspects byte-for-byte). -/
def PyVal.render : PyVal → String
| .none => "None"
| .str s => s
| .int n => toString n
| .bool b => if b then "True" else "False"
| .list _ => "[list]"
| .dict _ => "[dict]"

/-- Python dict.get(k): None when the key is missing; calling .get on a
non-dict raises AttributeError. -/
def PyVal.get (v : PyVal) (k : String) : Except PyError PyVal :=
  match v with
  | .dict fields => .ok ((fields.lookup k).getD PyVal.none)
  | _ => .error (.attributeError "object has no attribute get")

/-- Python dict.get(k, default); AttributeError on a non-dict. -/
def PyVal.getD (v : PyVal) (k : String) (d : PyVal) : Except PyError PyVal :=
  match v with
  | .dict fields => .ok ((fields.lookup k).getD d)
  | _ => .error (.attributeError "object has no attribute get")

/-- Domain event entity (src/app/infra/events/entities/event.py): a pydantic
model with fields id : str, name : str, data : Any. -/
structure Event where
  id : String
  name : String
  data : PyVal
deriving Repr

/-- The pydantic validation message raised when Event(id=..., name=..., ...)
receives a non-string (or missing, i.e. None) id or name. -/
def eventValidationMsg : String :=
  "validation error for Event: id and name must be valid strings"

/-- Model of the pydantic constructor call Event(id=..., name=..., data=...):
id and name are annotated str, so pydantic rejects None and every non-string
input with a ValidationError; data is Any and accepts everything. -/
def Event.construct (id name data : PyVal) : Except PyError Event :=
  match id, name with
  | .str i, .str n => .ok ⟨i, n, data⟩
  | _, _ => .error (.validationError eventValidationMsg)

/-- ServiceStatus enum (src/app/core/origin/schemas/ServiceStatus.py). -/
inductive ServiceStatus
| SUCCESS
| FAILURE
| UNAUTHORIZED
| NOT_FOUND
| VALIDATION_ERROR
| CONFLICT
| INTERNAL_ERROR
deriving DecidableEq, Repr

/-- ServiceOutput (src/app/core/origin/schemas/ServiceOutput.py): status, data
and error_message of one service execution. -/
structure ServiceOutput where
  status : ServiceStatus
  data : Option PyVal
  errorMessage : Option String
deriving Repr

/-- OUTPUT_ProcessEvents: success flag and message of the event pipeline.  The
schema module itself is not under src; its shape (success : bool,
message : str) is taken from its constructions in USECASE_ProcessEvents. -/
structure OUTPUT_ProcessEvents where
  success : Bool
  message : String
deriving DecidableEq, Repr

/-- USECASE_ProcessEvents.execute: resolve the event processor and run it on
the event.  The helper resolution (importlib lookup in
CONTRACT_HELPER_ProcessEvents_V0.detect_event_processor) and the processor body
are modelled together by the oracle processor; a .error models either of them
raising.  A non-SUCCESS status raises Exception(error_message or Unknown
error); every exception in the try block is caught by the except clause, which
returns success = false with the wrapped message.  (The logger.debug(result)
call inside the try block carries no correlation id and is not modelled.) -/
def executeProcessEvents (processor : Event → Except PyError ServiceOutput)
    (event : Event) : OUTPUT_ProcessEvents :=
  match processor event with
  | .error e =>
      ⟨false, "Failed to process event: " ++ event.name ++ ". Error: " ++ e.str⟩
  | .ok result =>
      if result.status = ServiceStatus.SUCCESS then
        ⟨true, "Event processed successfully: " ++ event.name⟩
      else
        ⟨false, "Failed to process event: " ++ event.name ++ ". Error: " ++
          result.errorMessage.getD "Unknown error"⟩

/-- FUNCTION_ProcessEvents (factory): builds the concrete helper and the
usecase and delegates to execute. -/
def FUNCTION_ProcessEvents (processor : Event → Except PyError ServiceOutput)
    (request : Event) : OUTPUT_ProcessEvents :=
  executeProcessEvents processor request

/-- Effects and outcome of KafkaConsumerAdapter._consume_message: the log lines
emitted, the events handed to FUNCTION_ProcessEvents, and either a normal
return or the re-raised exception. -/
structure ConsumeResult where
  logs : List LogLine
  pipelineCalls : List Event
  outcome : Except PyError Unit
deriving Repr

/-- The expression Event(id=value.get(id), name=value.get(name),
data=value.get(data)): evaluate the three .get calls left to right, then run
the pydantic constructor. -/
def buildEvent (value : PyVal) : Except PyError Event :=
  match value.get "id" with
  | .error e => .error e
  | .ok i =>
      match value.get "name" with
      | .error e => .error e
      | .ok n =>
          match value.get "data" with
          | .error e => .error e
          | .ok d => Event.construct i n d

/-- KafkaConsumerAdapter._consume_message: build the Event from
value.get(id) / value.get(name) / value.get(data), log it, run the pipeline
via FUNCTION_ProcessEvents, and raise RuntimeError when the pipeline reports
failure; the except clause logs the error and re-raises.  The key argument is
accepted but unused, as in the source. -/
def consumeMessage (processor : Event → Except PyError ServiceOutput)
    (key : Option String) (value : PyVal) (cid : String) : ConsumeResult :=
  match buildEvent value with
  | .error e =>
      ⟨[(.error, "[" ++ cid ++ "] Event processing error: " ++ e.str)], [],
       .error e⟩
  | .ok event =>
      let eventLog : LogLine :=
        (.info, "[" ++ cid ++ "] Event: " ++ event.name ++ " (ID: " ++
          event.id ++ ")")
      let result := FUNCTION_ProcessEvents processor event
      if result.success then
        ⟨[eventLog,
          (.info, "[" ++ cid ++ "] Processed successfully: " ++ result.message)],
         [event], .ok ()⟩
      else
        let e := PyError.runtimeError ("Event processing failed: " ++ result.message)
        ⟨[eventLog,
          (.error, "[" ++ cid ++ "] Event processing error: " ++ e.str)],
         [event], .error e⟩

/-- One produce call to the DLQ topic: the arguments of
producer.produce(dlq_topic, key, value, headers) — the headers carry the
correlation id and the error reason already truncated to 500 characters. -/
structure DlqEnvelope where
  topic : String
  key : Option (List Nat)
  value : Option (List Nat)
  correlationId : String
  errorReason : String
deriving DecidableEq, Repr

/-- Outcome of the producer.produce + producer.flush(timeout=5) pair for one
envelope, as seen by _send_to_dlq. -/
inductive DlqIOResult
| ok
| produceRaised (e : PyError)
| flushRaised (e : PyError)
deriving DecidableEq, Repr

/-- Effects of one _send_to_dlq call: the produce attempts made (always exactly
one) and the log lines emitted. -/
structure DlqSendResult where
  attempts : List DlqEnvelope
  logs : List LogLine
deriving DecidableEq, Repr

/-- Python string slicing error_reason[:500] (the Truncate long errors comment
in _send_to_dlq): the first 500 characters of the string. -/
def truncate500 (s : String) : String :=
  ⟨s.data.take 500⟩

/-- Model of the f-string rendering of the original key bytes in the critical
DLQ-failure log. -/
def renderKey : Option (List Nat) → String
| none => "None"
| some bs => "bytes " ++ String.intercalate " " (bs.map toString)

/-- The critical log message of _send_to_dlq when publishing to the DLQ itself
fails: correlation id, DLQ failure detail, original failure reason and
original key. -/
def criticalDlqLog (cid : String) (e : PyError) (errorReason : String)
    (key : Option (List Nat)) : String :=
  "[" ++ cid ++ "] CRITICAL: Failed to send to DLQ! DLQ Error: " ++ e.str ++
    ". Original error: " ++ errorReason ++ ". Message key: " ++ renderKey key

/-- KafkaConsumerAdapter._send_to_dlq: build the headers (error_reason sliced
to its first 500 characters), produce to the DLQ topic and flush; every
exception of the producer is caught and logged at critical severity — the
function never re-raises. -/
def sendToDlq (dlqProduce : DlqEnvelope → DlqIOResult) (dlqTopic : String)
    (key value : Option (List Nat)) (cid errorReason : String) : DlqSendResult :=
  let env : DlqEnvelope := ⟨dlqTopic, key, value, cid, truncate500 errorReason⟩
  match dlqProduce env with
  | .ok =>
      ⟨[env], [(.warning, "[" ++ cid ++ "] Message sent to DLQ: " ++ dlqTopic)]⟩
  | .produceRaised e =>
      ⟨[env], [(.critical, criticalDlqLog cid e errorReason key)]⟩
  | .flushRaised e =>
      ⟨[env], [(.critical, criticalDlqLog cid e errorReason key)]⟩

/-- A non-error record returned by consumer.poll as seen by
_process_message_safely: key bytes and value bytes (none models a missing key
and a null/tombstone value respectively). -/
structure KafkaMsg where
  key : Option (List Nat)
  value : Option (List Nat)
deriving DecidableEq, Repr

/-- The external behaviours KafkaConsumerAdapter composes, one oracle per
capability:
- jsonLoads models json.loads(raw_value.decode(utf-8)) on non-null bytes
  (its failures are the UnicodeDecodeError of .decode or the JSONDecodeError
  of json.loads);
- utf8 models msg.key().decode(utf-8);
- processor models detect_event_processor(event) followed by
  processor.process(event) — the dynamically resolved business callback;
- dlqProduce models the DLQ producer produce/flush pair;
- dlqTopic is dotenv.KAFKA_DLQ_TOPIC. -/
structure World where
  jsonLoads : List Nat → Except PyError PyVal
  utf8 : List Nat → Except PyError String
  processor : Event → Except PyError ServiceOutput
  dlqProduce : DlqEnvelope → DlqIOResult
  dlqTopic : String

/-- key = msg.key().decode(utf-8) if msg.key() else None. -/
def decodeKey (w : World) (k : Option (List Nat)) : Except PyError (Option String) :=
  match k with
  | some kb => Except.map some (w.utf8 kb)
  | none => .ok none

/-- Effects of processing one record in _process_message_safely: log lines,
DLQ produce attempts, and the events handed to the processing pipeline.  The
function has no exceptional outcome: as in the source, every raised exception
is consumed by the inner JSON handler or the outer except Exception handler. -/
structure ProcessResult where
  logs : List LogLine
  dlq : List DlqEnvelope
  pipelineCalls : List Event
deriving Repr

/-- The outer except-branch of _process_message_safely: log the error and send
raw_value or msg.value() (Python or: falls back when raw_value is falsy, i.e.
None or empty bytes) to the DLQ with str(e) as the reason. -/
def outerHandler (w : World) (msg : KafkaMsg) (rawValue : Option (List Nat))
    (cid : String) (e : PyError) : ProcessResult :=
  let payload := match rawValue with
                 | none => msg.value
                 | some bs => if bs = [] then msg.value else some bs
  let sent := sendToDlq w.dlqProduce w.dlqTopic msg.key payload cid e.str
  ⟨(.error, "[" ++ cid ++ "] Error processing message: " ++ e.str) :: sent.logs,
   sent.attempts, []⟩

/-- KafkaConsumerAdapter._process_message_safely: read raw_value and decode the
key, then parse json.loads(raw_value.decode(utf-8)) — a null raw_value fails
with AttributeError at .decode, outside the (JSONDecodeError,
UnicodeDecodeError) handler; a parse failure of that pair is logged and routed
to the DLQ by the inner handler; otherwise the message is logged and handed to
_consume_message (run via asyncio.run), whose exception is caught by the outer
handler and routed to the DLQ.  All failures end in the DLQ; nothing
propagates. -/
def processMessageSafely (w : World) (msg : KafkaMsg) (cid : String) :
    ProcessResult :=
  let rawValue := msg.value
  match decodeKey w msg.key with
  | .error e => outerHandler w msg rawValue cid e
  | .ok key =>
      match rawValue with
      | none =>
          outerHandler w msg rawValue cid
            (.attributeError "NoneType object has no attribute decode")
      | some bytes =>
          match w.jsonLoads bytes with
          | .error e =>
              if e.isJsonOrUnicodeError then
                let sent := sendToDlq w.dlqProduce w.dlqTopic msg.key rawValue cid
                  ("JSON error: " ++ e.str)
                ⟨(.error, "[" ++ cid ++ "] Invalid JSON/encoding in message: " ++
                    e.str) :: sent.logs,
                 sent.attempts, []⟩
              else
                outerHandler w msg rawValue cid e
          | .ok value =>
              match value.getD "name" (PyVal.str "unknown") with
              | .error e => outerHandler w msg rawValue cid e
              | .ok nameVal =>
                  let headerLog : LogLine :=
                    (.info, "[" ++ cid ++ "] Processing message: " ++ nameVal.render)
                  let c := consumeMessage w.processor key value cid
                  match c.outcome with
                  | .ok _ => ⟨headerLog :: c.logs, [], c.pipelineCalls⟩
                  | .error e =>
                      let outer := outerHandler w msg rawValue cid e
                      ⟨headerLog :: (c.logs ++ outer.logs), outer.dlq,
                       c.pipelineCalls⟩

/-- One result of consumer.poll(timeout=1.0) inside the poll loop. -/
inductive PollItem
| nothing
| brokerError (isEof : Bool) (desc : String)
| record (msg : KafkaMsg)
deriving Repr

/-- KafkaConsumerAdapter._handle_kafka_error: an end-of-partition indicator is
logged at debug severity, every other broker-level error at error severity
(desc summarises topic/partition/offset or the error text). -/
def handleKafkaError (isEof : Bool) (desc : String) (cid : String) : LogLine :=
  if isEof then
    (.debug, "[" ++ cid ++ "] Reached end of partition " ++ desc)
  else
    (.error, "[" ++ cid ++ "] Kafka error: " ++ desc)

/-- Effects of the poll loop: one (correlation id, result) entry per record
processed, plus all log lines in emission order. -/
structure PollLoopResult where
  perRecord : List (String × ProcessResult)
  logs : List LogLine
deriving Repr

/-- The while-body of KafkaConsumerAdapter.poll_messages over the finite trace
of items polled while keep_running held and the stop flag stayed unset: a None
poll result is skipped, a broker-level error is logged and skipped, and every
record is processed by _process_message_safely.  cids i models the
uuid4-derived correlation id generated for the i-th non-None poll result. -/
def pollLoop (w : World) (cids : Nat → String) :
    List PollItem → Nat → PollLoopResult
| [], _ => ⟨[], []⟩
| PollItem.nothing :: rest, i => pollLoop w cids rest i
| PollItem.brokerError isEof d :: rest, i =>
    let r := pollLoop w cids rest (i + 1)
    ⟨r.perRecord, handleKafkaError isEof d (cids i) :: r.logs⟩
| PollItem.record m :: rest, i =>
    let pr := processMessageSafely w m (cids i)
    let r := pollLoop w cids rest (i + 1)
    ⟨(cids i, pr) :: r.perRecord, pr.logs ++ r.logs⟩

/-- MAX_CONNECTION_RETRIES of KafkaConsumerAdapter. -/
def MAX_CONNECTION_RETRIES : Nat := 5

/-- INITIAL_BACKOFF_SECONDS of KafkaConsumerAdapter. -/
def INITIAL_BACKOFF_SECONDS : Nat := 1

/-- MAX_BACKOFF_SECONDS of KafkaConsumerAdapter. -/
def MAX_BACKOFF_SECONDS : Nat := 30

/-- Outcome of one KafkaConsumerAdapter.init call: how many connection
attempts were made, the backoff sleeps performed between consecutive attempts,
and whether init returned normally (success = false models the
ConnectionError raised after the attempt budget is exhausted). -/
structure InitRun where
  attempts : Nat
  delays : List Nat
  success : Bool
deriving DecidableEq, Repr

/-- The retry loop of KafkaConsumerAdapter.init during a run in which the stop
flag is never set (a set stop flag would instead raise InterruptedError inside
the interruptible sleep).  connectOk a tells whether attempt number a (1-based)
of Consumer(conf)/subscribe/Producer(...) succeeds; remaining counts the
attempts still available including the current one.  On a failed attempt: when
it was the last one, raise ConnectionError; otherwise sleep the current
backoff, then double it capped at MAX_BACKOFF_SECONDS and retry. -/
def initAux (connectOk : Nat → Bool) : Nat → Nat → Nat → InitRun
| 0, _, _ => ⟨0, [], false⟩
| remaining + 1, attempt, backoff =>
    if connectOk attempt then ⟨1, [], true⟩
    else if remaining = 0 then ⟨1, [], false⟩
    else
      let r := initAux connectOk remaining (attempt + 1)
        (min (backoff * 2) MAX_BACKOFF_SECONDS)
      ⟨r.attempts + 1, backoff :: r.delays, r.success⟩

/-- KafkaConsumerAdapter.init: the retry loop entered with attempt 1 and
backoff = INITIAL_BACKOFF_SECONDS, bounded by MAX_CONNECTION_RETRIES. -/
def initRun (connectOk : Nat → Bool) : InitRun :=
  initAux connectOk MAX_CONNECTION_RETRIES 1 INITIAL_BACKOFF_SECONDS

/-- Outcome of self._consumer.commit() inside _close_consumer: a KafkaError is
caught by the inner handler, any other exception escapes to the outer
except Exception. -/
inductive CommitOutcome
| ok
| kafkaErr (m : String)
| otherErr (m : String)
deriving DecidableEq, Repr

/-- Outcome of self._consumer.close() inside _close_consumer. -/
inductive CloseOutcome
| ok
| raised (m : String)
deriving DecidableEq, Repr

/-- The two instance fields _close_consumer reads: the closed flag
(_consumer_closed, initialised to True in __init__ and cleared by a successful
init) and whether self._consumer is not None. -/
structure CloseState where
  consumerClosed : Bool
  hasConsumer : Bool
deriving DecidableEq, Repr

/-- Effects of one _close_consumer call: the resulting state, whether a commit
and a close were actually attempted on the client, and the emitted logs. -/
structure CloseRun where
  state : CloseState
  commitAttempted : Bool
  closeAttempted : Bool
  logs : List LogLine
deriving DecidableEq, Repr

/-- The close step of _close_consumer (if self._consumer: self._consumer.close()
with its success log), reached only when the commit step did not escape. -/
def closePart (close : CloseOutcome) (hasConsumer : Bool) : Bool × List LogLine :=
  if hasConsumer then
    match close with
    | .ok => (true, [(.info, "Kafka consumer closed successfully.")])
    | .raised m => (true, [(.error, "Error during consumer disconnection: " ++ m)])
  else (false, [])

/-- KafkaConsumerAdapter._close_consumer: return immediately when the closed
flag is already set; otherwise optionally commit (KafkaError is only warned
about, any other commit exception jumps to the outer handler and skips the
close), then close the client; the outer except logs the escaping exception
and the finally clause always sets the closed flag. -/
def closeConsumer (commit : CommitOutcome) (close : CloseOutcome)
    (commitOffsets : Bool) (s : CloseState) : CloseRun :=
  if s.consumerClosed then
    ⟨s, false, false, []⟩
  else
    let closedState : CloseState := ⟨true, s.hasConsumer⟩
    if commitOffsets && s.hasConsumer then
      match commit with
      | .otherErr m =>
          ⟨closedState, true, false,
           [(.error, "Error during consumer disconnection: " ++ m)]⟩
      | .ok =>
          let cp := closePart close s.hasConsumer
          ⟨closedState, true, cp.1, (.info, "Offsets committed.") :: cp.2⟩
      | .kafkaErr m =>
          let cp := closePart close s.hasConsumer
          ⟨closedState, true, cp.1,
           (.warning, "Could not commit offsets: " ++ m) :: cp.2⟩
    else
      let cp := closePart close s.hasConsumer
      ⟨closedState, false, cp.1, cp.2⟩

/-- The lifecycle-relevant state of one KafkaConsumerAdapter instance: the
stop flag (threading.Event), the tracked worker list (thread_list, with
threads named by Nat handles), the keep_running flag toggled by the poll
hooks, and the consumer close state touched by after_stopping_poll. -/
structure AdapterState where
  stopFlagSet : Bool
  threadList : List Nat
  keepRunning : Bool
  closeState : CloseState
deriving DecidableEq, Repr

/-- Effects of one start_scheduler call: the resulting state, the returned
worker handle or the raised RuntimeError message, and the emitted logs. -/
structure StartRun where
  state : AdapterState
  outcome : Except String Nat
  logs : List LogLine
deriving Repr

/-- AbstractConsumerAdapter.start_scheduler on a KafkaConsumerAdapter, under
the lifecycle lock: a non-empty thread_list is warned about and raises
RuntimeError with the state untouched; otherwise the stop flag is cleared,
before_starting_poll sets keep_running, a fresh worker (handle newThread) is
spawned and appended to thread_list, after_starting_poll is a no-op, and the
worker handle is returned. -/
def startScheduler (s : AdapterState) (newThread : Nat) : StartRun :=
  if s.threadList.isEmpty then
    ⟨⟨false, [newThread], true, s.closeState⟩, .ok newThread,
     [(.info, "Poll Messages: Start Command")]⟩
  else
    ⟨s, .error "Poll Messages - start scheduler: Already started",
     [(.warning, "Poll Messages - start scheduler: Already started")]⟩

/-- Effects of one stop_scheduler call. -/
structure StopRun where
  state : AdapterState
  outcome : Except String Unit
  logs : List LogLine
deriving Repr

/-- AbstractConsumerAdapter.stop_scheduler on a KafkaConsumerAdapter, under the
lifecycle lock: an empty thread_list is warned about and raises RuntimeError
with the state untouched; otherwise before_stopping_poll clears keep_running,
the stop flag is set, every tracked thread is joined with a 10s timeout
(workerStopped tells whether it terminated in time — a still-alive thread is
only warned about), thread_list is emptied, and after_stopping_poll closes the
consumer with commit_offsets=True (commit/close model the broker calls inside
that close). -/
def stopScheduler (s : AdapterState) (workerStopped : Bool)
    (commit : CommitOutcome) (close : CloseOutcome) : StopRun :=
  if s.threadList.isEmpty then
    ⟨s, .error "Poll Messages - stop scheduler: Nothing to stop",
     [(.warning, "Poll Messages - stop scheduler: Nothing to stop")]⟩
  else
    let joinLogs : List LogLine :=
      if workerStopped then []
      else s.threadList.map
        (fun _ => (LogLevel.warning, "Thread did not stop within timeout"))
    let closeRun := closeConsumer commit close true s.closeState
    ⟨⟨true, [], false, closeRun.state⟩, .ok (),
     (.info, "Poll Messages: Stop Command initiated") ::
       (joinLogs ++ closeRun.logs ++
        [(.info, "Poll Messages: Stop Command completed")])⟩

/-- AbstractConsumerAdapter.is_scheduler_running: len(thread_list) > 0. -/
def isSchedulerRunning (s : AdapterState) : Bool :=
  decide (0 < s.threadList.length)

/-- POLL_RESTART_DELAY_SECONDS of AbstractConsumerAdapter. -/
def POLL_RESTART_DELAY_SECONDS : Nat := 5

/-- Outcome of one poll_messages() invocation as observed by _poll_wrapper. -/
inductive PollOutcome
| normal
| raises (e : String)
deriving DecidableEq, Repr

/-- Observable trace of a _poll_wrapper run: how many times poll_messages was
invoked, the emitted logs, the seconds slept in restart delays, and whether the
while loop exited (false means the modelling fuel ran out while the loop was
still going). -/
structure WrapperRun where
  pollCalls : Nat
  logs : List LogLine
  sleptSeconds : Nat
  exited : Bool
deriving DecidableEq, Repr

/-- The interruptible restart sleep of _poll_wrapper: up to
POLL_RESTART_DELAY_SECONDS iterations, each checking the stop flag and then
sleeping one second.  stop k is the k-th stop_flag.is_set() sample of the
whole wrapper run; the result is (seconds slept, stop-flag checks consumed). -/
def restartSleep (stop : Nat → Bool) : Nat → Nat → Nat × Nat
| 0, _ => (0, 0)
| r + 1, k =>
    if stop k then (0, 1)
    else
      let sc := restartSleep stop r (k + 1)
      (sc.1 + 1, sc.2 + 1)

/-- AbstractConsumerAdapter._poll_wrapper: while the stop flag is unset, call
poll_messages(); a normal return falls through to the next while-condition
check; an exception first re-checks the stop flag (set: log and break), then
logs the error and performs the interruptible restart sleep before the next
while iteration.  behave c is the outcome of the poll_messages call number
c + 1; stop k the k-th stop_flag.is_set() sample; fuel bounds the number of
while iterations modelled (the concrete loop can run unboundedly). -/
def pollWrapperAux (behave : Nat → PollOutcome) (stop : Nat → Bool) :
    Nat → Nat → Nat → WrapperRun
| 0, _, _ => ⟨0, [], 0, false⟩
| fuel + 1, c, k =>
    if stop k then
      ⟨0, [(.info, "Poll wrapper exited gracefully")], 0, true⟩
    else
      match behave c with
      | .normal =>
          let r := pollWrapperAux behave stop fuel (c + 1) (k + 1)
          ⟨r.pollCalls + 1, r.logs, r.sleptSeconds, r.exited⟩
      | .raises e =>
          if stop (k + 1) then
            ⟨1, [(.info, "Poll stopped due to shutdown signal"),
                 (.info, "Poll wrapper exited gracefully")], 0, true⟩
          else
            let sc := restartSleep stop POLL_RESTART_DELAY_SECONDS (k + 2)
            let r := pollWrapperAux behave stop fuel (c + 1) (k + 2 + sc.2)
            ⟨r.pollCalls + 1,
             (.error,
              "Error caught in _poll_wrapper: " ++ e ++ ". Restarting in 5s...")
               :: r.logs,
             sc.1 + r.sleptSeconds, r.exited⟩

/-- A _poll_wrapper run started at its entry point. -/
def pollWrapper (behave : Nat → PollOutcome) (stop : Nat → Bool)
    (fuel : Nat) : WrapperRun :=
  pollWrapperAux behave stop fuel 0 0

/-- Outcome of one KafkaConsumerAdapter.poll_messages call. -/
structure PollMessagesRun where
  connectAttempts : Nat
  perRecord : List (String × ProcessResult)
  logs : List LogLine
  closedAtExit : Bool
  raised : Option String
deriving Repr

/-- KafkaConsumerAdapter.poll_messages: init with retries, then the poll loop
over the polled items; the finally clause always closes the consumer, and a
ConnectionError from init is logged and re-raised past the loop. -/
def pollMessages (w : World) (connectOk : Nat → Bool) (cids : Nat → String)
    (items : List PollItem) : PollMessagesRun :=
  let ir := initRun connectOk
  if ir.success then
    let lp := pollLoop w cids items 0
    ⟨ir.attempts, lp.perRecord, lp.logs, true, none⟩
  else
    ⟨ir.attempts, [],
     [(.error,
       "Unexpected error in Kafka consumer: Failed to connect to Kafka after 5 attempts")],
     true, some "ConnectionError"⟩

/-- _send_to_dlq always makes exactly one produce attempt, carrying the
truncated reason, whatever the producer then does. -/
theorem sendToDlq_attempts (dlqProduce : DlqEnvelope → DlqIOResult) (dlqTopic : String)
    (key value : Option (List Nat)) (cid reason : String) :
    (sendToDlq dlqProduce dlqTopic key value cid reason).attempts =
      [⟨dlqTopic, key, value, cid, truncate500 reason⟩] := by
  simp only [sendToDlq]
  cases h : dlqProduce ⟨dlqTopic, key, value, cid, truncate500 reason⟩ <;> simp [h]

/-- Unfolding of _process_message_safely on the inner-handler path: value bytes
present, key decoding fine, json.loads failing with one of the two handled
exception types. -/
theorem pms_json_error_eq (w : World) (msg : KafkaMsg) (bytes : List Nat)
    (cid : String) (e : PyError) (k : Option String)
    (hval : msg.value = some bytes)
    (hkey : decodeKey w msg.key = .ok k)
    (hdec : w.jsonLoads bytes = .error e)
    (hjson : e.isJsonOrUnicodeError = true) :
    processMessageSafely w msg cid =
      ⟨(LogLevel.error, "[" ++ cid ++ "] Invalid JSON/encoding in message: " ++
          e.str) ::
        (sendToDlq w.dlqProduce w.dlqTopic msg.key (some bytes) cid
          ("JSON error: " ++ e.str)).logs,
       (sendToDlq w.dlqProduce w.dlqTopic msg.key (some bytes) cid
          ("JSON error: " ++ e.str)).attempts, []⟩ := by
  simp only [processMessageSafely, hval, hkey, hdec, hjson]
  simp

/-- C1: for every polled record whose value bytes are not valid structured
data (json.loads of the decoded bytes raises a JSONDecodeError or a
UnicodeDecodeError), poll_messages neither propagates an exception (the
modelled _process_message_safely returns a plain effect trace on every input)
nor invokes the event-processing pipeline; it makes exactly one dead-letter
produce attempt for the record, whose reason is the decode-error indicator
"JSON error: " followed by the error text (truncated to 500 characters), and
the polling loop continues with the remaining items. -/
theorem C1_decode_failure_one_dlq_attempt (w : World) (msg : KafkaMsg)
    (bytes : List Nat) (cid : String) (e : PyError) (k : Option String)
    (rest : List PollItem) (cids : Nat → String) (i : Nat)
    (hval : msg.value = some bytes)
    (hkey : decodeKey w msg.key = .ok k)
    (hdec : w.jsonLoads bytes = .error e)
    (hjson : e.isJsonOrUnicodeError = true) :
    (processMessageSafely w msg cid).dlq =
      [⟨w.dlqTopic, msg.key, some bytes, cid,
        truncate500 ("JSON error: " ++ e.str)⟩] ∧
    (processMessageSafely w msg cid).pipelineCalls = [] ∧
    (∃ tail, (processMessageSafely w msg cid).logs =
      (LogLevel.error, "[" ++ cid ++ "] Invalid JSON/encoding in message: " ++
        e.str) :: tail) ∧
    pollLoop w cids (PollItem.record msg :: rest) i =
      ⟨(cids i, processMessageSafely w msg (cids i)) ::
         (pollLoop w cids rest (i + 1)).perRecord,
       (processMessageSafely w msg (cids i)).logs ++
         (pollLoop w cids rest (i + 1)).logs⟩ := by
  refine ⟨?_, ?_, ?_, rfl⟩
  · rw [pms_json_error_eq w msg bytes cid e k hval hkey hdec hjson]
    exact sendToDlq_attempts w.dlqProduce w.dlqTopic msg.key (some bytes) cid
      ("JSON error: " ++ e.str)
  · rw [pms_json_error_eq w msg bytes cid e k hval hkey hdec hjson]
  · exact ⟨_, by rw [pms_json_error_eq w msg bytes cid e k hval hkey hdec hjson]⟩

/-- A concrete world for witnesses: json.loads always fails with a
JSONDecodeError, the key decodes fine, the processor succeeds, the DLQ
producer works. -/
def wJsonFail : World where
  jsonLoads := fun _ => .error (.jsonDecodeError "Expecting value: line 1 column 1 (char 0)")
  utf8 := fun _ => .ok "key"
  processor := fun _ => .ok ⟨.SUCCESS, Option.none, Option.none⟩
  dlqProduce := fun _ => .ok
  dlqTopic := "orders-dlq"

/-- Witness for C1 at a concrete malformed record. -/
theorem C1_witness :
    (processMessageSafely wJsonFail ⟨Option.none, some [255]⟩ "abc12345").dlq =
      [⟨"orders-dlq", Option.none, some [255], "abc12345",
        truncate500 "JSON error: Expecting value: line 1 column 1 (char 0)"⟩] ∧
    (processMessageSafely wJsonFail ⟨Option.none, some [255]⟩ "abc12345").pipelineCalls = [] :=
  ⟨(C1_decode_failure_one_dlq_attempt wJsonFail ⟨Option.none, some [255]⟩ [255]
      "abc12345" (.jsonDecodeError "Expecting value: line 1 column 1 (char 0)")
      Option.none [] (fun _ => "abc12345") 0 rfl rfl rfl rfl).1,
   (C1_decode_failure_one_dlq_attempt wJsonFail ⟨Option.none, some [255]⟩ [255]
      "abc12345" (.jsonDecodeError "Expecting value: line 1 column 1 (char 0)")
      Option.none [] (fun _ => "abc12345") 0 rfl rfl rfl rfl).2.1⟩

/-- The AttributeError raised by raw_value.decode when raw_value is None. -/
def noneDecodeError : PyError :=
  .attributeError "NoneType object has no attribute decode"

/-- Unfolding of _process_message_safely on a null (tombstone) value: the
decode step fails with AttributeError before json.loads, which the inner
(JSONDecodeError, UnicodeDecodeError) handler does not match, so the outer
except Exception handler runs. -/
theorem pms_none_value_eq (w : World) (msg : KafkaMsg) (cid : String)
    (k : Option String)
    (hval : msg.value = none)
    (hkey : decodeKey w msg.key = .ok k) :
    processMessageSafely w msg cid = outerHandler w msg none cid noneDecodeError := by
  simp only [processMessageSafely, hval, hkey, noneDecodeError]

/-- C10: for every polled record whose value is null (msg.value() returns
None), poll_messages does not raise and does not silently skip the record:
the decode fails with an AttributeError outside the JSON-specific handler, the
generic outer handler catches it (its "Error processing message" log line, not
the "Invalid JSON/encoding" one, is emitted), exactly one dead-letter produce
attempt is made with a null value payload, the processing pipeline is never
invoked, and the poll loop continues with the remaining items. -/
theorem C10_null_value_routes_to_dlq (w : World) (msg : KafkaMsg)
    (cid : String) (k : Option String) (rest : List PollItem)
    (cids : Nat → String) (i : Nat)
    (hval : msg.value = none)
    (hkey : decodeKey w msg.key = .ok k) :
    (processMessageSafely w msg cid).dlq =
      [⟨w.dlqTopic, msg.key, none, cid, truncate500 noneDecodeError.str⟩] ∧
    (processMessageSafely w msg cid).pipelineCalls = [] ∧
    (∃ tail, (processMessageSafely w msg cid).logs =
      (LogLevel.error, "[" ++ cid ++ "] Error processing message: " ++
        noneDecodeError.str) :: tail) ∧
    pollLoop w cids (PollItem.record msg :: rest) i =
      ⟨(cids i, processMessageSafely w msg (cids i)) ::
         (pollLoop w cids rest (i + 1)).perRecord,
       (processMessageSafely w msg (cids i)).logs ++
         (pollLoop w cids rest (i + 1)).logs⟩ := by
  have h := pms_none_value_eq w msg cid k hval hkey
  refine ⟨?_, ?_, ?_, rfl⟩
  · rw [h]
    simp only [outerHandler]
    rw [hval]
    exact sendToDlq_attempts w.dlqProduce w.dlqTopic msg.key none cid noneDecodeError.str
  · rw [h]; rfl
  · refine ⟨(sendToDlq w.dlqProduce w.dlqTopic msg.key msg.value cid
      noneDecodeError.str).logs, ?_⟩
    rw [h]; rfl

/-- A concrete world for the C10 witness (json.loads is never reached). -/
def wTombstone : World where
  jsonLoads := fun _ => .ok PyVal.none
  utf8 := fun _ => .ok "key"
  processor := fun _ => .ok ⟨.SUCCESS, Option.none, Option.none⟩
  dlqProduce := fun _ => .ok
  dlqTopic := "orders-dlq"

/-- Witness for C10 at a concrete tombstone record. -/
theorem C10_witness :
    (processMessageSafely wTombstone ⟨some [107], Option.none⟩ "cid00001").dlq =
      [⟨"orders-dlq", some [107], Option.none, "cid00001",
        truncate500 noneDecodeError.str⟩] ∧
    (processMessageSafely wTombstone ⟨some [107], Option.none⟩ "cid00001").pipelineCalls = [] :=
  ⟨(C10_null_value_routes_to_dlq wTombstone ⟨some [107], Option.none⟩ "cid00001"
      (some "key") [] (fun _ => "cid00001") 0 rfl rfl).1,
   (C10_null_value_routes_to_dlq wTombstone ⟨some [107], Option.none⟩ "cid00001"
      (some "key") [] (fun _ => "cid00001") 0 rfl rfl).2.1⟩

/-- The pydantic constructor rejects every non-string id or name. -/
theorem construct_not_str (i n d : PyVal)
    (h : i.isStr = false ∨ n.isStr = false) :
    Event.construct i n d = .error (.validationError eventValidationMsg) := by
  cases i <;> cases n <;> simp_all [Event.construct, PyVal.isStr]

/-- On a JSON object, the Event construction reads the three fields with
missing ones defaulting to None. -/
theorem buildEvent_dict (fields : List (String × PyVal)) :
    buildEvent (.dict fields) =
      Event.construct ((fields.lookup "id").getD PyVal.none)
        ((fields.lookup "name").getD PyVal.none)
        ((fields.lookup "data").getD PyVal.none) := by
  simp [buildEvent, PyVal.get]

/-- Unfolding of _consume_message when the Event construction raises: the
error is logged and re-raised and the pipeline is not called. -/
theorem consume_construct_err (processor : Event → Except PyError ServiceOutput)
    (key : Option String) (value : PyVal) (cid : String) (e : PyError)
    (h : buildEvent value = .error e) :
    consumeMessage processor key value cid =
      ⟨[(LogLevel.error, "[" ++ cid ++ "] Event processing error: " ++ e.str)],
       [], .error e⟩ := by
  simp only [consumeMessage, h]

/-- Unfolding of the outer handler when raw_value held some bytes (the Python
raw_value-or-msg.value() fallback yields the same bytes either way). -/
theorem outerHandler_some_eq (w : World) (msg : KafkaMsg) (bytes : List Nat)
    (cid : String) (e : PyError) (hval : msg.value = some bytes) :
    outerHandler w msg (some bytes) cid e =
      ⟨(LogLevel.error, "[" ++ cid ++ "] Error processing message: " ++ e.str) ::
         (sendToDlq w.dlqProduce w.dlqTopic msg.key (some bytes) cid e.str).logs,
       (sendToDlq w.dlqProduce w.dlqTopic msg.key (some bytes) cid e.str).attempts,
       []⟩ := by
  simp only [outerHandler]
  rcases eq_or_ne bytes [] with hb | hb
  · subst hb; simp [hval]
  · simp [hb]

/-- Unfolding of _process_message_safely when the payload parses to a JSON
object but _consume_message raises. -/
theorem pms_dict_consume_err_eq (w : World) (msg : KafkaMsg) (bytes : List Nat)
    (cid : String) (k : Option String) (fields : List (String × PyVal))
    (e : PyError)
    (hval : msg.value = some bytes)
    (hkey : decodeKey w msg.key = .ok k)
    (hdec : w.jsonLoads bytes = .ok (.dict fields))
    (hout : (consumeMessage w.processor k (.dict fields) cid).outcome = .error e) :
    processMessageSafely w msg cid =
      ⟨(LogLevel.info, "[" ++ cid ++ "] Processing message: " ++
          ((fields.lookup "name").getD (PyVal.str "unknown")).render) ::
         ((consumeMessage w.processor k (.dict fields) cid).logs ++
          (outerHandler w msg (some bytes) cid e).logs),
       (outerHandler w msg (some bytes) cid e).dlq,
       (consumeMessage w.processor k (.dict fields) cid).pipelineCalls⟩ := by
  simp only [processMessageSafely, hval, hkey, hdec, PyVal.getD, hout]

/-- C9: for every record whose value bytes decode as a JSON object lacking a
string id field or a string name field, the pydantic Event construction raises
a validation error, the record is routed to the dead-letter sink with that
validation error as the reason, and FUNCTION_ProcessEvents is never invoked
for it. -/
theorem C9_invalid_event_fields_routes_to_dlq (w : World) (msg : KafkaMsg)
    (bytes : List Nat) (cid : String) (k : Option String)
    (fields : List (String × PyVal))
    (hval : msg.value = some bytes)
    (hkey : decodeKey w msg.key = .ok k)
    (hdec : w.jsonLoads bytes = .ok (.dict fields))
    (hbad : ((fields.lookup "id").getD PyVal.none).isStr = false ∨
            ((fields.lookup "name").getD PyVal.none).isStr = false) :
    buildEvent (.dict fields) = .error (.validationError eventValidationMsg) ∧
    (processMessageSafely w msg cid).dlq =
      [⟨w.dlqTopic, msg.key, some bytes, cid, truncate500 eventValidationMsg⟩] ∧
    (processMessageSafely w msg cid).pipelineCalls = [] := by
  have hc : buildEvent (.dict fields) =
      .error (.validationError eventValidationMsg) := by
    rw [buildEvent_dict]
    exact construct_not_str _ _ _ hbad
  have hcm := consume_construct_err w.processor k (.dict fields) cid
    (.validationError eventValidationMsg) hc
  have hout : (consumeMessage w.processor k (.dict fields) cid).outcome =
      .error (.validationError eventValidationMsg) := by rw [hcm]
  have h := pms_dict_consume_err_eq w msg bytes cid k fields
    (.validationError eventValidationMsg) hval hkey hdec hout
  refine ⟨hc, ?_, ?_⟩
  · rw [h]
    show (outerHandler w msg (some bytes) cid
      (.validationError eventValidationMsg)).dlq = _
    rw [outerHandler_some_eq w msg bytes cid _ hval]
    exact sendToDlq_attempts w.dlqProduce w.dlqTopic msg.key (some bytes) cid _
  · rw [h]
    show (consumeMessage w.processor k (.dict fields) cid).pipelineCalls = []
    rw [hcm]

/-- A concrete world for the C9 witness: the value parses to a JSON object
whose name is present but whose id is missing. -/
def wNoId : World where
  jsonLoads := fun _ => .ok (.dict [("name", .str "OrderCreated")])
  utf8 := fun _ => .ok "key"
  processor := fun _ => .ok ⟨.SUCCESS, Option.none, Option.none⟩
  dlqProduce := fun _ => .ok
  dlqTopic := "orders-dlq"

/-- Witness for C9 at a concrete id-less JSON object. -/
theorem C9_witness :
    (processMessageSafely wNoId ⟨Option.none, some [123, 125]⟩ "cid00002").dlq =
      [⟨"orders-dlq", Option.none, some [123, 125], "cid00002",
        truncate500 eventValidationMsg⟩] ∧
    (processMessageSafely wNoId ⟨Option.none, some [123, 125]⟩ "cid00002").pipelineCalls = [] :=
  ⟨(C9_invalid_event_fields_routes_to_dlq wNoId ⟨Option.none, some [123, 125]⟩
      [123, 125] "cid00002" Option.none [("name", .str "OrderCreated")]
      rfl rfl rfl (Or.inl rfl)).2.1,
   (C9_invalid_event_fields_routes_to_dlq wNoId ⟨Option.none, some [123, 125]⟩
      [123, 125] "cid00002" Option.none [("name", .str "OrderCreated")]
      rfl rfl rfl (Or.inl rfl)).2.2⟩

/-- The reason string that actually reaches the DLQ when the processing
callback reports failure with message r on an event named n: the usecase wraps
r once and _consume_message wraps that again. -/
def wrappedReason (n r : String) : String :=
  "Event processing failed: " ++ ("Failed to process event: " ++ n ++ ". Error: " ++ r)

/-- Unfolding of _consume_message when the Event builds fine and the resolved
processor reports a non-success ServiceOutput with message r: the usecase
catches its own Exception(r) and returns success = false, _consume_message
turns that into a raised RuntimeError with the doubly wrapped reason. -/
theorem consume_dispatch_err (processor : Event → Except PyError ServiceOutput)
    (key : Option String) (fields : List (String × PyVal)) (i n : String)
    (cid r : String) (dat : Option PyVal)
    (hid : fields.lookup "id" = some (.str i))
    (hname : fields.lookup "name" = some (.str n))
    (hproc : processor ⟨i, n, (fields.lookup "data").getD PyVal.none⟩ =
      .ok ⟨.FAILURE, dat, some r⟩) :
    consumeMessage processor key (.dict fields) cid =
      ⟨[(LogLevel.info, "[" ++ cid ++ "] Event: " ++ n ++ " (ID: " ++ i ++ ")"),
        (LogLevel.error, "[" ++ cid ++ "] Event processing error: " ++
          wrappedReason n r)],
       [⟨i, n, (fields.lookup "data").getD PyVal.none⟩],
       .error (.runtimeError (wrappedReason n r))⟩ := by
  have hb : buildEvent (.dict fields) =
      .ok ⟨i, n, (fields.lookup "data").getD PyVal.none⟩ := by
    rw [buildEvent_dict, hid, hname]
    rfl
  simp only [consumeMessage, hb, FUNCTION_ProcessEvents, executeProcessEvents,
    hproc]
  simp [wrappedReason, PyError.str]

/-- C5 counterexample data: a well-formed record and a callback that reports
failure with reason boom. -/
def wBoom : World where
  jsonLoads := fun _ => .ok (.dict
    [("id", .str "e1"), ("name", .str "OrderCreated"),
     ("data", .dict [("orderId", .str "42")])])
  utf8 := fun _ => .ok "key"
  processor := fun _ => .ok ⟨.FAILURE, Option.none, some "boom"⟩
  dlqProduce := fun _ => .ok
  dlqTopic := "orders-dlq"

/-- The concrete record fed to wBoom. -/
def msgBoom : KafkaMsg := ⟨Option.none, some [123]⟩

/-- C5 counterexample: for a well-formed record whose processing callback
reports failure with reason boom, the dead-letter error_reason header does not
equal boom (nor its 500-character truncation, which is boom itself): it is the
doubly wrapped message. -/
theorem C5_counterexample :
    (processMessageSafely wBoom msgBoom "cid00003").dlq.map DlqEnvelope.errorReason =
      [truncate500 (wrappedReason "OrderCreated" "boom")] ∧
    truncate500 (wrappedReason "OrderCreated" "boom") ≠ "boom" ∧
    truncate500 "boom" = "boom" := by
  have hcm := consume_dispatch_err wBoom.processor Option.none
    [("id", .str "e1"), ("name", .str "OrderCreated"),
     ("data", .dict [("orderId", .str "42")])]
    "e1" "OrderCreated" "cid00003" "boom" Option.none rfl rfl rfl
  have hout : (consumeMessage wBoom.processor Option.none
      (.dict [("id", .str "e1"), ("name", .str "OrderCreated"),
        ("data", .dict [("orderId", .str "42")])]) "cid00003").outcome =
      .error (.runtimeError (wrappedReason "OrderCreated" "boom")) := by rw [hcm]
  have h := pms_dict_consume_err_eq wBoom msgBoom [123] "cid00003" Option.none
    [("id", .str "e1"), ("name", .str "OrderCreated"),
     ("data", .dict [("orderId", .str "42")])]
    (.runtimeError (wrappedReason "OrderCreated" "boom")) rfl rfl rfl hout
  have hdlq : (processMessageSafely wBoom msgBoom "cid00003").dlq =
      [⟨"orders-dlq", Option.none, some [123], "cid00003",
        truncate500 (wrappedReason "OrderCreated" "boom")⟩] := by
    rw [h]
    show (outerHandler wBoom msgBoom (some [123]) "cid00003"
      (.runtimeError (wrappedReason "OrderCreated" "boom"))).dlq = _
    rw [outerHandler_some_eq wBoom msgBoom [123] "cid00003" _ rfl]
    exact sendToDlq_attempts wBoom.dlqProduce wBoom.dlqTopic msgBoom.key (some [123])
      "cid00003" _
  refine ⟨by rw [hdlq]; rfl, ?_, rfl⟩
  decide

/-- C5 amended: for a well-formed record whose processing callback reports
failure with reason r, the dead-letter error_reason header equals the doubly
wrapped reason (Event processing failed: Failed to process event: name.
Error: r) truncated to 500 characters, the envelope correlation_id header
equals the correlation id, and the same correlation id appears in the
corresponding error log line for that record. -/
theorem C5_dlq_reason_and_correlation (w : World) (msg : KafkaMsg)
    (bytes : List Nat) (cid : String) (k : Option String)
    (fields : List (String × PyVal)) (i n r : String) (dat : Option PyVal)
    (hval : msg.value = some bytes)
    (hkey : decodeKey w msg.key = .ok k)
    (hdec : w.jsonLoads bytes = .ok (.dict fields))
    (hid : fields.lookup "id" = some (.str i))
    (hname : fields.lookup "name" = some (.str n))
    (hproc : w.processor ⟨i, n, (fields.lookup "data").getD PyVal.none⟩ =
      .ok ⟨.FAILURE, dat, some r⟩) :
    (processMessageSafely w msg cid).dlq =
      [⟨w.dlqTopic, msg.key, some bytes, cid, truncate500 (wrappedReason n r)⟩] ∧
    (∀ env ∈ (processMessageSafely w msg cid).dlq, env.correlationId = cid) ∧
    (LogLevel.error, "[" ++ cid ++ "] Event processing error: " ++
      wrappedReason n r) ∈ (processMessageSafely w msg cid).logs := by
  have hcm := consume_dispatch_err w.processor k fields i n cid r dat
    hid hname hproc
  have hout : (consumeMessage w.processor k (.dict fields) cid).outcome =
      .error (.runtimeError (wrappedReason n r)) := by rw [hcm]
  have h := pms_dict_consume_err_eq w msg bytes cid k fields
    (.runtimeError (wrappedReason n r)) hval hkey hdec hout
  have hdlq : (processMessageSafely w msg cid).dlq =
      [⟨w.dlqTopic, msg.key, some bytes, cid, truncate500 (wrappedReason n r)⟩] := by
    rw [h]
    show (outerHandler w msg (some bytes) cid
      (.runtimeError (wrappedReason n r))).dlq = _
    rw [outerHandler_some_eq w msg bytes cid _ hval]
    exact sendToDlq_attempts w.dlqProduce w.dlqTopic msg.key (some bytes) cid _
  refine ⟨hdlq, ?_, ?_⟩
  · intro env henv
    rw [hdlq] at henv
    simp only [List.mem_singleton] at henv
    rw [henv]
  · rw [h, hcm]
    simp [PyError.str]

/-- Witness for the amended C5 at the counterexample input. -/
theorem C5_witness :
    (processMessageSafely wBoom msgBoom "cid00003").dlq =
      [⟨"orders-dlq", Option.none, some [123], "cid00003",
        truncate500 (wrappedReason "OrderCreated" "boom")⟩] ∧
    (LogLevel.error, "[cid00003] Event processing error: " ++
      wrappedReason "OrderCreated" "boom") ∈
      (processMessageSafely wBoom msgBoom "cid00003").logs :=
  ⟨(C5_dlq_reason_and_correlation wBoom msgBoom [123] "cid00003" Option.none
      [("id", .str "e1"), ("name", .str "OrderCreated"),
       ("data", .dict [("orderId", .str "42")])]
      "e1" "OrderCreated" "boom" Option.none rfl rfl rfl rfl rfl rfl).1,
   by
    have := (C5_dlq_reason_and_correlation wBoom msgBoom [123] "cid00003"
      Option.none
      [("id", .str "e1"), ("name", .str "OrderCreated"),
       ("data", .dict [("orderId", .str "42")])]
      "e1" "OrderCreated" "boom" Option.none rfl rfl rfl rfl rfl rfl).2.2
    simpa using this⟩

/-- C6: a dead-letter publish whose produce or flush itself raises never
propagates the exception out of _send_to_dlq (the modelled function returns a
plain effect trace on every input): the produce attempt is still recorded
exactly once, the only emitted log line is the critical one carrying the
correlation id, the DLQ failure detail, the original failure reason and the
original key, and the poll loop still processes every subsequent record. -/
theorem C6_dlq_failure_logged_not_raised (dlqProduce : DlqEnvelope → DlqIOResult)
    (dlqTopic : String) (key value : Option (List Nat)) (cid reason : String)
    (e : PyError)
    (hfail : dlqProduce ⟨dlqTopic, key, value, cid, truncate500 reason⟩ =
        .produceRaised e ∨
      dlqProduce ⟨dlqTopic, key, value, cid, truncate500 reason⟩ = .flushRaised e) :
    (sendToDlq dlqProduce dlqTopic key value cid reason).attempts =
      [⟨dlqTopic, key, value, cid, truncate500 reason⟩] ∧
    (sendToDlq dlqProduce dlqTopic key value cid reason).logs =
      [(LogLevel.critical, criticalDlqLog cid e reason key)] ∧
    (∀ (w : World) (msg : KafkaMsg) (rest : List PollItem)
        (cids : Nat → String) (i : Nat),
      (pollLoop w cids (PollItem.record msg :: rest) i).perRecord =
        (cids i, processMessageSafely w msg (cids i)) ::
          (pollLoop w cids rest (i + 1)).perRecord) := by
  refine ⟨sendToDlq_attempts dlqProduce dlqTopic key value cid reason, ?_,
    fun w msg rest cids i => rfl⟩
  rcases hfail with hf | hf <;> simp only [sendToDlq, hf]

/-- Witness for C6 with a producer that raises on produce. -/
theorem C6_witness :
    (sendToDlq (fun _ => .produceRaised (.exception "kafka down")) "orders-dlq"
      (some [107]) (some [118]) "cid00004" "some reason").logs =
      [(LogLevel.critical,
        criticalDlqLog "cid00004" (.exception "kafka down") "some reason"
          (some [107]))] :=
  (C6_dlq_failure_logged_not_raised
    (fun _ => .produceRaised (.exception "kafka down")) "orders-dlq"
    (some [107]) (some [118]) "cid00004" "some reason"
    (.exception "kafka down") (Or.inl rfl)).2.1

/-- C7: closing the consumer is idempotent: with the closed flag already set
(a second close, or a close without ever having connected — __init__ sets
_consumer_closed = True), _close_consumer attempts no commit and no close,
changes nothing and emits nothing; and after any _close_consumer call the
closed flag is set, whatever the commit and close calls did. -/
theorem C7_close_consumer_idempotent (cm : CommitOutcome) (cl : CloseOutcome)
    (co : Bool) (s : CloseState) :
    (s.consumerClosed = true →
      closeConsumer cm cl co s = ⟨s, false, false, []⟩) ∧
    (closeConsumer cm cl co s).state.consumerClosed = true := by
  obtain ⟨closed, hasC⟩ := s
  constructor
  · intro h
    simp only at h
    subst h
    simp [closeConsumer]
  · cases closed <;> cases co <;> cases hasC <;> cases cm <;> cases cl <;>
      simp [closeConsumer, closePart]

/-- Witness for C7 at the freshly initialised state (never connected). -/
theorem C7_witness :
    closeConsumer (.otherErr "boom") (.raised "boom") true ⟨true, false⟩ =
      ⟨⟨true, false⟩, false, false, []⟩ ∧
    (closeConsumer .ok .ok true ⟨false, true⟩).state.consumerClosed = true :=
  ⟨(C7_close_consumer_idempotent (.otherErr "boom") (.raised "boom") true
      ⟨true, false⟩).1 rfl,
   (C7_close_consumer_idempotent .ok .ok true ⟨false, true⟩).2⟩

/-- C3: start_scheduler while one worker is tracked raises the lifecycle
RuntimeError and leaves the state — in particular the tracked worker count of
exactly 1 — untouched; stop_scheduler while no worker is tracked raises the
lifecycle RuntimeError and leaves the state untouched, creating no worker and
changing no lifecycle flag.  Neither misuse is a silent no-op. -/
theorem C3_lifecycle_misuse_raises (s sIdle : AdapterState) (t : Nat)
    (ws : Bool) (cm : CommitOutcome) (cl : CloseOutcome)
    (hrun : s.threadList.length = 1)
    (hidle : sIdle.threadList = []) :
    (startScheduler s t).outcome =
      .error "Poll Messages - start scheduler: Already started" ∧
    (startScheduler s t).state = s ∧
    (startScheduler s t).state.threadList.length = 1 ∧
    (stopScheduler sIdle ws cm cl).outcome =
      .error "Poll Messages - stop scheduler: Nothing to stop" ∧
    (stopScheduler sIdle ws cm cl).state = sIdle := by
  have h1 : s.threadList.isEmpty = false := by
    cases hl : s.threadList with
    | nil => rw [hl] at hrun; simp at hrun
    | cons a l => simp
  have h2 : sIdle.threadList.isEmpty = true := by simp [hidle]
  refine ⟨?_, ?_, ?_, ?_, ?_⟩ <;>
    simp [startScheduler, stopScheduler, h1, h2, hrun]

/-- Witness for C3 at concrete running and idle states. -/
theorem C3_witness :
    (startScheduler ⟨false, [7], true, ⟨false, true⟩⟩ 9).outcome =
      .error "Poll Messages - start scheduler: Already started" ∧
    (startScheduler ⟨false, [7], true, ⟨false, true⟩⟩ 9).state.threadList.length = 1 ∧
    (stopScheduler ⟨false, [], false, ⟨true, false⟩⟩ true .ok .ok).outcome =
      .error "Poll Messages - stop scheduler: Nothing to stop" :=
  ⟨(C3_lifecycle_misuse_raises ⟨false, [7], true, ⟨false, true⟩⟩
      ⟨false, [], false, ⟨true, false⟩⟩ 9 true .ok .ok rfl rfl).1,
   (C3_lifecycle_misuse_raises ⟨false, [7], true, ⟨false, true⟩⟩
      ⟨false, [], false, ⟨true, false⟩⟩ 9 true .ok .ok rfl rfl).2.2.1,
   (C3_lifecycle_misuse_raises ⟨false, [7], true, ⟨false, true⟩⟩
      ⟨false, [], false, ⟨true, false⟩⟩ 9 true .ok .ok rfl rfl).2.2.2.1⟩

/-- C8: after a successful stop_scheduler — for any join outcome, i.e. whether
or not the worker terminated within the timeout — is_scheduler_running is
false (no worker tracked), and a subsequent start_scheduler succeeds, clearing
the stop flag and tracking exactly the fresh worker. -/
theorem C8_stop_then_restart (s : AdapterState) (ws : Bool)
    (cm : CommitOutcome) (cl : CloseOutcome) (t : Nat)
    (hrun : s.threadList ≠ []) :
    (stopScheduler s ws cm cl).outcome = .ok () ∧
    isSchedulerRunning (stopScheduler s ws cm cl).state = false ∧
    (startScheduler (stopScheduler s ws cm cl).state t).outcome = .ok t ∧
    (startScheduler (stopScheduler s ws cm cl).state t).state.stopFlagSet = false ∧
    (startScheduler (stopScheduler s ws cm cl).state t).state.threadList = [t] := by
  have h1 : s.threadList.isEmpty = false := by
    cases hl : s.threadList with
    | nil => exact absurd hl hrun
    | cons a l => simp
  refine ⟨?_, ?_, ?_, ?_, ?_⟩ <;>
    simp [stopScheduler, startScheduler, isSchedulerRunning, h1]

/-- Witness for C8 at a concrete running state whose worker misses the join
timeout. -/
theorem C8_witness :
    isSchedulerRunning
      (stopScheduler ⟨false, [7], true, ⟨false, true⟩⟩ false .ok .ok).state = false ∧
    (startScheduler
      (stopScheduler ⟨false, [7], true, ⟨false, true⟩⟩ false .ok .ok).state 9).state.threadList = [9] :=
  ⟨(C8_stop_then_restart ⟨false, [7], true, ⟨false, true⟩⟩ false .ok .ok 9
      (by simp)).2.1,
   (C8_stop_then_restart ⟨false, [7], true, ⟨false, true⟩⟩ false .ok .ok 9
      (by simp)).2.2.2.2⟩

/-- The backoff sequence slept by the init retry loop: start at b, after each
sleep double capped at MAX_BACKOFF_SECONDS. -/
def backoffSeq : Nat → Nat → List Nat
| _, 0 => []
| b, k + 1 => b :: backoffSeq (min (b * 2) MAX_BACKOFF_SECONDS) k

/-- Characterisation of the init retry loop: when the attempts starting at
number attempt fail n times and attempt number attempt + n succeeds within the
remaining budget, the loop makes exactly n + 1 attempts, sleeps the backoff
sequence from the current backoff, and returns success. -/
theorem initAux_spec (ok : Nat → Bool) :
    ∀ (n rem attempt backoff : Nat), n < rem →
    (∀ i, attempt ≤ i → i < attempt + n → ok i = false) →
    ok (attempt + n) = true →
    initAux ok rem attempt backoff = ⟨n + 1, backoffSeq backoff n, true⟩ := by
  intro n
  induction n with
  | zero =>
      intro rem attempt backoff hrem hfail hsucc
      obtain ⟨r, rfl⟩ : ∃ r, rem = r + 1 := ⟨rem - 1, by omega⟩
      simp only [Nat.add_zero] at hsucc
      simp [initAux, hsucc, backoffSeq]
  | succ n ih =>
      intro rem attempt backoff hrem hfail hsucc
      obtain ⟨r, rfl⟩ : ∃ r, rem = r + 1 := ⟨rem - 1, by omega⟩
      have hat : ok attempt = false := hfail attempt le_rfl (by omega)
      have hr : r ≠ 0 := by omega
      have hrec := ih r (attempt + 1) (min (backoff * 2) MAX_BACKOFF_SECONDS)
        (by omega)
        (fun i h1 h2 => hfail i (by omega) (by omega))
        (by show ok (attempt + 1 + n) = true; rw [show attempt + 1 + n = attempt + (n + 1) by omega]; exact hsucc)
      simp [initAux, hat, hr, hrec, backoffSeq]

/-- C4: for every N below MAX_CONNECTION_RETRIES, if the first N connection
attempts fail and attempt N + 1 succeeds, init makes exactly N + 1 attempts
and returns successfully, and the backoff delays slept between consecutive
attempts follow the capped doubling sequence from INITIAL_BACKOFF_SECONDS
(equivalently min (2 to-the i) MAX_BACKOFF_SECONDS for the i-th delay), which
is non-decreasing and bounded by MAX_BACKOFF_SECONDS. -/
theorem C4_connect_retry_backoff (connectOk : Nat → Bool) (N : Nat)
    (hN : N < MAX_CONNECTION_RETRIES)
    (hfail : ∀ i, 1 ≤ i → i ≤ N → connectOk i = false)
    (hsucc : connectOk (N + 1) = true) :
    (initRun connectOk).attempts = N + 1 ∧
    (initRun connectOk).success = true ∧
    (initRun connectOk).delays = backoffSeq INITIAL_BACKOFF_SECONDS N ∧
    (initRun connectOk).delays =
      (List.range N).map (fun i => min (2 ^ i) MAX_BACKOFF_SECONDS) ∧
    (initRun connectOk).delays.Chain' (· ≤ ·) ∧
    (∀ d ∈ (initRun connectOk).delays, d ≤ MAX_BACKOFF_SECONDS) := by
  have hN5 : N < 5 := hN
  have h0 : initRun connectOk = ⟨N + 1, backoffSeq 1 N, true⟩ :=
    initAux_spec connectOk N 5 1 1 (by omega)
      (fun i h1 h2 => hfail i h1 (by omega))
      (by rw [show 1 + N = N + 1 by omega]; exact hsucc)
  refine ⟨by rw [h0], by rw [h0], by rw [h0]; rfl, ?_, ?_, ?_⟩
  · rw [h0]; interval_cases N <;> decide
  · rw [h0]; interval_cases N <;>
      norm_num [backoffSeq, MAX_BACKOFF_SECONDS, List.chain'_cons]
  · rw [h0]; interval_cases N <;> decide

/-- Witness for C4 with two forced failures followed by a success. -/
theorem C4_witness :
    (initRun (fun a => decide (3 ≤ a))).attempts = 3 ∧
    (initRun (fun a => decide (3 ≤ a))).success = true ∧
    (initRun (fun a => decide (3 ≤ a))).delays = [1, 2] :=
  ⟨(C4_connect_retry_backoff (fun a => decide (3 ≤ a)) 2 (by decide)
      (fun i h1 h2 => by interval_cases i <;> decide) rfl).1,
   (C4_connect_retry_backoff (fun a => decide (3 ≤ a)) 2 (by decide)
      (fun i h1 h2 => by interval_cases i <;> decide) rfl).2.1,
   by
    rw [(C4_connect_retry_backoff (fun a => decide (3 ≤ a)) 2 (by decide)
      (fun i h1 h2 => by interval_cases i <;> decide) rfl).2.2.1]
    decide⟩

/-- One-step unfolding of the _poll_wrapper while loop. -/
theorem pollWrapperAux_succ (behave : Nat → PollOutcome) (stop : Nat → Bool)
    (fuel c k : Nat) :
    pollWrapperAux behave stop (fuel + 1) c k =
      if stop k then
        ⟨0, [(.info, "Poll wrapper exited gracefully")], 0, true⟩
      else
        match behave c with
        | .normal =>
            let r := pollWrapperAux behave stop fuel (c + 1) (k + 1)
            ⟨r.pollCalls + 1, r.logs, r.sleptSeconds, r.exited⟩
        | .raises e =>
            if stop (k + 1) then
              ⟨1, [(.info, "Poll stopped due to shutdown signal"),
                   (.info, "Poll wrapper exited gracefully")], 0, true⟩
            else
              let sc := restartSleep stop POLL_RESTART_DELAY_SECONDS (k + 2)
              let r := pollWrapperAux behave stop fuel (c + 1) (k + 2 + sc.2)
              ⟨r.pollCalls + 1,
               (.error, "Error caught in _poll_wrapper: " ++ e ++
                 ". Restarting in 5s...") :: r.logs,
               sc.1 + r.sleptSeconds, r.exited⟩ := rfl

/-- While the stop flag reads false at the current check and fuel remains, the
wrapper invokes poll_messages at least once. -/
theorem pollWrapperAux_pollCalls_pos (behave : Nat → PollOutcome)
    (stop : Nat → Bool) (fuel c k : Nat) (h : stop k = false) :
    1 ≤ (pollWrapperAux behave stop (fuel + 1) c k).pollCalls := by
  rw [pollWrapperAux_succ]
  simp only [h, if_false, Bool.false_eq_true]
  cases hb : behave c
  · simp
  · by_cases h2 : stop (k + 1) <;> simp [h2]

/-- An all-unset stop flag lets the restart sleep run its full course: r
one-second sleeps consuming r checks. -/
theorem restartSleep_all_false (stop : Nat → Bool) (h : ∀ j, stop j = false) :
    ∀ r k, restartSleep stop r k = (r, r) := by
  intro r
  induction r with
  | zero => intro k; rfl
  | succ n ih => intro k; simp [restartSleep, h, ih]

/-- C2 counterexample: with the stop signal never set and poll_messages
returning normally every time, the wrapper does not exit after the first
normal return — within three modelled while-iterations poll_messages is
invoked three times and the loop is still running, refuting that a normal
return exits the loop without re-invocation when the stop signal is unset. -/
theorem C2_counterexample :
    (pollWrapper (fun _ => PollOutcome.normal) (fun _ => false) 3).pollCalls = 3 ∧
    (pollWrapper (fun _ => PollOutcome.normal) (fun _ => false) 3).exited = false := by
  decide

/-- C2 amended: the wrapper loop exits only on observing the stop signal set.
After a normal poll_messages return the loop re-checks the stop signal: set —
it exits with that single invocation having been made; unset — it re-invokes
poll_messages.  If poll_messages raises while the stop signal is never set,
the loop logs the failure, sleeps the full POLL_RESTART_DELAY_SECONDS
(checking the stop signal at one-second granularity), and re-invokes
poll_messages; the model is a fuel-indexed while loop, matching the iterative
(non-recursive) source. -/
theorem C2_poll_wrapper_restart (behave : Nat → PollOutcome) (stop : Nat → Bool)
    (fuel c k : Nat) (hstop : stop k = false) :
    (behave c = .normal → stop (k + 1) = true →
      pollWrapperAux behave stop (fuel + 2) c k =
        ⟨1, [(LogLevel.info, "Poll wrapper exited gracefully")], 0, true⟩) ∧
    (behave c = .normal → stop (k + 1) = false →
      2 ≤ (pollWrapperAux behave stop (fuel + 2) c k).pollCalls) ∧
    (∀ e, behave c = .raises e → (∀ j, stop j = false) →
      2 ≤ (pollWrapperAux behave stop (fuel + 2) c k).pollCalls ∧
      (LogLevel.error,
        "Error caught in _poll_wrapper: " ++ e ++ ". Restarting in 5s...") ∈
        (pollWrapperAux behave stop (fuel + 2) c k).logs ∧
      POLL_RESTART_DELAY_SECONDS ≤
        (pollWrapperAux behave stop (fuel + 2) c k).sleptSeconds) := by
  refine ⟨?_, ?_, ?_⟩
  · intro hb hset
    rw [show fuel + 2 = (fuel + 1) + 1 by omega, pollWrapperAux_succ]
    simp only [hstop, if_false, Bool.false_eq_true, hb]
    rw [pollWrapperAux_succ]
    simp [hset]
  · intro hb hunset
    rw [show fuel + 2 = (fuel + 1) + 1 by omega, pollWrapperAux_succ]
    simp only [hstop, if_false, Bool.false_eq_true, hb]
    have := pollWrapperAux_pollCalls_pos behave stop fuel (c + 1) (k + 1) hunset
    show 2 ≤ (pollWrapperAux behave stop (fuel + 1) (c + 1) (k + 1)).pollCalls + 1
    omega
  · intro e hb hall
    rw [show fuel + 2 = (fuel + 1) + 1 by omega, pollWrapperAux_succ]
    simp only [hstop, if_false, Bool.false_eq_true, hb, hall (k + 1)]
    rw [restartSleep_all_false stop hall]
    have := pollWrapperAux_pollCalls_pos behave stop fuel (c + 1)
      (k + 2 + POLL_RESTART_DELAY_SECONDS) (hall _)
    refine ⟨?_, by simp, ?_⟩
    · show 2 ≤ (pollWrapperAux behave stop (fuel + 1) (c + 1)
        (k + 2 + POLL_RESTART_DELAY_SECONDS)).pollCalls + 1
      omega
    · show POLL_RESTART_DELAY_SECONDS ≤ POLL_RESTART_DELAY_SECONDS +
        (pollWrapperAux behave stop (fuel + 1) (c + 1)
          (k + 2 + POLL_RESTART_DELAY_SECONDS)).sleptSeconds
      omega

/-- Witness for the amended C2: a failing and a normally returning
poll_messages, stop signal never set. -/
theorem C2_witness :
    2 ≤ (pollWrapperAux (fun _ => PollOutcome.raises "kafka down")
      (fun _ => false) 2 0 0).pollCalls ∧
    2 ≤ (pollWrapperAux (fun _ => PollOutcome.normal)
      (fun _ => false) 2 0 0).pollCalls :=
  ⟨((C2_poll_wrapper_restart (fun _ => PollOutcome.raises "kafka down")
      (fun _ => false) 0 0 0 rfl).2.2 "kafka down" rfl (fun _ => rfl)).1,
   (C2_poll_wrapper_restart (fun _ => PollOutcome.normal)
      (fun _ => false) 0 0 0 rfl).2.1 rfl rfl⟩

end OrderProcessing
